import Mathlib

/-!
Verification of the gainz portfolio-metrics core against its specification.

The JavaScript sources are embedded shallowly:

* JavaScript numbers are modelled by `JSNum`: an exact rational together
  with the IEEE special values `NaN`, `Infinity`, `-Infinity` that the
  validation code in `historicalData.js` explicitly tests for.  Arithmetic
  in the metrics engine is modelled exactly over `ℚ`; `Math.pow` is kept
  as an uninterpreted parameter `jsPow` because none of the verified
  properties depend on its numeric value, only on where it is (not) called.
* `Date` objects are UTC-millisecond timestamps (`Int`).  The embedding
  fixes the JavaScript runtime's local time zone to UTC, which is the
  convention the repository's own tests and the specification use, so the
  local-time `setDate`/`setHours` calls coincide with UTC day arithmetic.
* The `YYYY-MM-DD` date strings produced by `formatDate`
  (`toISOString().split('T')[0]`) are rendered as UTC day numbers
  (days since 1970-01-01); the rendering day ↦ string is injective, so
  equality of the strings is equality of the day numbers.
* Thrown exceptions become `Except String`; `null` becomes `Option`.
-/

/-- A JavaScript number: an exact rational, or one of the special values
`NaN` / `Infinity` / `-Infinity` distinguished by the validation code. -/
inductive JSNum where
  | nan : JSNum
  | posInf : JSNum
  | negInf : JSNum
  | fin (q : ℚ) : JSNum
deriving DecidableEq

/-- A JavaScript value as far as `parseHistoricalData` inspects its input:
primitives, arrays, and objects projected onto the two properties
(`start` and `prices`) that the parser reads. -/
inductive JSVal where
  | undefined : JSVal
  | nul : JSVal
  | boolean (b : Bool) : JSVal
  | num (n : JSNum) : JSVal
  | str (s : String) : JSVal
  | arr (xs : List JSVal) : JSVal
  | obj (startProp pricesProp : JSVal) : JSVal

namespace JSVal

/-- JavaScript truthiness: `false`, `0`, `NaN`, `""`, `null`, `undefined`
are falsy, everything else is truthy. -/
def truthy : JSVal → Bool
  | .undefined => false
  | .nul => false
  | .boolean b => b
  | .num .nan => false
  | .num (.fin q) => decide (q ≠ 0)
  | .num _ => true
  | .str s => decide (s ≠ "")
  | .arr _ => true
  | .obj _ _ => true

/-- Whether `typeof v === 'object'` (true for `null`, arrays and objects). -/
def typeofIsObject : JSVal → Bool
  | .nul => true
  | .arr _ => true
  | .obj _ _ => true
  | _ => false

/-- Whether `typeof v === 'number'`. -/
def isNumberType : JSVal → Bool
  | .num _ => true
  | _ => false

/-- Property access `v.start`: `undefined` on anything without the field. -/
def startProp : JSVal → JSVal
  | .obj s _ => s
  | _ => .undefined

/-- Property access `v.prices`. -/
def pricesProp : JSVal → JSVal
  | .obj _ p => p
  | _ => .undefined

end JSVal

/-- The `isNaN(v)` test as applied by the parser to values already known to
be numbers (the `typeof` disjunct short-circuits first in the source). -/
def jsIsNaN : JSVal → Bool
  | .num .nan => true
  | _ => false

/-- The `v < 0` test on a number (`NaN < 0` and `Infinity < 0` are false,
`-Infinity < 0` is true). -/
def jsLtZero : JSVal → Bool
  | .num (.fin q) => decide (q < 0)
  | .num .negInf => true
  | _ => false

/-- `Number.isFinite` semantics: true only for a non-`NaN`, non-infinite
number.  Used to state the spec's "finite" invariant; the parser itself
never calls it. -/
def jsIsFinite : JSVal → Bool
  | .num (.fin _) => true
  | _ => false

/-! ## Calendar arithmetic (UTC)

`new Date("YYYY-MM-DDT00:00:00.000Z")` yields the UTC-midnight timestamp of
a proleptic-Gregorian calendar day.  `daysFromCivil` is that day's index
relative to 1970-01-01 (the standard civil-from-days correspondence, which
is what ECMAScript `Date` implements). -/

/-- Milliseconds per day, `1000 * 60 * 60 * 24` in the source. -/
def msPerDay : Int := 86400000

/-- Gregorian leap-year test. -/
def isLeapYear (y : Int) : Prop :=
  (y.emod 4 = 0 ∧ y.emod 100 ≠ 0) ∨ y.emod 400 = 0

instance (y : Int) : Decidable (isLeapYear y) := by
  unfold isLeapYear; infer_instance

/-- Length of month `m` (1–12) of year `y`. -/
def daysInMonth (y m : Int) : Int :=
  if m = 2 then (if isLeapYear y then 29 else 28)
  else if m = 4 ∨ m = 6 ∨ m = 9 ∨ m = 11 then 30
  else 31

/-- Days since 1970-01-01 of the civil date `y-m-d`. -/
def daysFromCivil (y m d : Int) : Int :=
  let yr := if m ≤ 2 then y - 1 else y
  let era := yr.fdiv 400
  let yoe := yr - era * 400
  let mp := (m + 9).emod 12
  let doy := (153 * mp + 2).fdiv 5 + d - 1
  let doe := yoe * 365 + yoe.fdiv 4 - yoe.fdiv 100 + doy
  era * 146097 + doe - 719468

/-- The inverse correspondence: civil date `(y, m, d)` of a day index. -/
def civilFromDays (z0 : Int) : Int × Int × Int :=
  let z := z0 + 719468
  let era := z.fdiv 146097
  let doe := z - era * 146097
  let yoe := (doe - doe.fdiv 1460 + doe.fdiv 36524 - doe.fdiv 146096).fdiv 365
  let y := yoe + era * 400
  let doy := doe - (365 * yoe + yoe.fdiv 4 - yoe.fdiv 100)
  let mp := (5 * doy + 2).fdiv 153
  let d := doy - (153 * mp + 2).fdiv 5 + 1
  let m := mp + (if mp < 10 then 3 else -9)
  (if m ≤ 2 then y + 1 else y, m, d)

/-- Numeric value of two decimal digit characters. -/
def twoDigitVal (a b : Char) : Option Int :=
  if a.isDigit ∧ b.isDigit then
    some (((a.toNat - 48) * 10 + (b.toNat - 48) : Nat) : Int)
  else none

/-- Numeric value of four decimal digit characters. -/
def fourDigitVal (a b c d : Char) : Option Int :=
  if a.isDigit ∧ b.isDigit ∧ c.isDigit ∧ d.isDigit then
    some (((((a.toNat - 48) * 10 + (b.toNat - 48)) * 10 + (c.toNat - 48)) * 10
      + (d.toNat - 48) : Nat) : Int)
  else none

/-- The calendar-date strings accepted by
`new Date(s + 'T00:00:00.000Z')`: the ISO `YYYY-MM-DD` date-only form whose
components denote an existing civil date (the engine rejects out-of-range
components such as `2024-02-30` as an Invalid Date). -/
def parseDateString (s : String) : Option (Int × Int × Int) :=
  match s.toList with
  | [y1, y2, y3, y4, h1, m1, m2, h2, d1, d2] =>
    if h1 = '-' ∧ h2 = '-' then
      match fourDigitVal y1 y2 y3 y4, twoDigitVal m1 m2, twoDigitVal d1 d2 with
      | some y, some m, some d =>
        if 1 ≤ m ∧ m ≤ 12 ∧ 1 ≤ d ∧ d ≤ daysInMonth y m then some (y, m, d)
        else none
      | _, _, _ => none
    else none
  | _ => none

/-- `parseDate` from `historicalData.js`: parse `YYYY-MM-DD` to the UTC
timestamp of that day's midnight, throwing on an invalid date. -/
def parseDate (dateString : String) : Except String Int :=
  match parseDateString dateString with
  | some (y, m, d) => .ok (daysFromCivil y m d * msPerDay)
  | none => .error ("Invalid date format: " ++ dateString)

/-- `formatDate` (`toISOString().split('T')[0]`) rendered as the UTC day
number of the timestamp; the day ↦ `YYYY-MM-DD` string rendering is
injective, so equality of formatted dates is equality of these values. -/
def formatDate (date : Int) : Int :=
  date.fdiv msPerDay

/-- `calculateDate` adds days to a (midnight UTC) start date.  The source
goes through the string rendering (`parseDate`/`setUTCDate`/`formatDate`);
on timestamps that is exact day addition. -/
def calculateDate (startDate : Int) (daysToAdd : Int) : Int :=
  startDate + daysToAdd * msPerDay

/-! ## Historical Series Store (`historicalData.js`) -/

/-- The record returned by `parseHistoricalData`. -/
structure ParsedData where
  start : String
  startDate : Int
  endDate : Int
  prices : List JSVal
  totalDays : Nat

/-- The per-element rejection test of the parser:
`typeof price !== 'number' || isNaN(price) || price < 0`. -/
def invalidPrice (price : JSVal) : Bool :=
  !price.isNumberType || jsIsNaN price || jsLtZero price

/-- `parseHistoricalData` from `historicalData.js`, validating the raw
`{start, prices}` object and deriving `startDate`/`endDate`/`totalDays`. -/
def parseHistoricalData (data : JSVal) : Except String ParsedData :=
  if !(data.truthy && data.typeofIsObject) then
    .error "Invalid historical data: must be an object"
  else if !(data.startProp.truthy) then
    .error "Invalid historical data: missing or invalid start date"
  else
    match data.startProp with
    | .str s =>
      match data.pricesProp with
      | .arr prices =>
        if prices.length = 0 then
          .error "Invalid historical data: prices array is empty"
        else
          match parseDate s with
          | .error e => .error e
          | .ok startDate =>
            let invalidPrices := prices.filter invalidPrice
            if invalidPrices.length > 0 then
              .error ("Invalid historical data: found "
                ++ toString invalidPrices.length ++ " invalid prices")
            else
              .ok { start := s
                    startDate := startDate
                    endDate := calculateDate startDate ((prices.length : Int) - 1)
                    prices := prices
                    totalDays := prices.length }
      | _ => .error "Invalid historical data: prices must be an array"
    | _ => .error "Invalid historical data: missing or invalid start date"

/-- `getPriceForDate`: price at a given instant, by floored whole-day
offset from the series start; `null` when out of range. -/
def getPriceForDate (historicalData : ParsedData) (target : Int) :
    Option (Int × JSVal) :=
  let daysDiff := (target - historicalData.startDate).fdiv msPerDay
  if daysDiff < 0 ∨ (historicalData.prices.length : Int) ≤ daysDiff then
    none
  else
    some (formatDate target,
      (historicalData.prices[daysDiff.toNat]?).getD .undefined)

/-- `getLatestPrice`: the last element paired with its date. -/
def getLatestPrice (historicalData : ParsedData) : Int × JSVal :=
  let latestIndex := historicalData.prices.length - 1
  (formatDate (calculateDate historicalData.startDate (latestIndex : Int)),
    (historicalData.prices[latestIndex]?).getD .undefined)

/-- The `for` loop of `getPriceRange`: entries for indices
`lo, lo+1, …, hi` (empty when `hi < lo`). -/
def rangeEntries (historicalData : ParsedData) (lo hi : Int) :
    List (Int × JSVal) :=
  (List.range (hi + 1 - lo).toNat).map fun (k : ℕ) =>
    let i := lo + (k : Int)
    (formatDate (calculateDate historicalData.startDate i),
      (historicalData.prices[i.toNat]?).getD .undefined)

/-- `getPriceRange`: entries for the days of `[startMs, endMs]` clipped to
the series bounds; throws when the range is reversed. -/
def getPriceRange (historicalData : ParsedData) (startMs endMs : Int) :
    Except String (List (Int × JSVal)) :=
  if endMs < startMs then
    .error "Start date must be before end date"
  else
    let startDiff := (startMs - historicalData.startDate).fdiv msPerDay
    let endDiff := (endMs - historicalData.startDate).fdiv msPerDay
    let actualStart := max 0 startDiff
    let actualEnd := min ((historicalData.prices.length : Int) - 1) endDiff
    .ok (rangeEntries historicalData actualStart actualEnd)

/-! ## Window Resolver (`timeWindows.js`)

All functions below use the JavaScript `Date` mutators `setDate` /
`setHours(0,0,0,0)`; with the runtime time zone fixed to UTC these are
exact day subtraction and flooring to UTC midnight. -/

/-- Flooring a timestamp to its day's midnight (`setHours(0,0,0,0)`). -/
def startOfDay (t : Int) : Int :=
  t.fdiv msPerDay * msPerDay

/-- `getStartOfYesterday`: go back one calendar day, then floor to
midnight. -/
def getStartOfYesterday (date : Int) : Int :=
  startOfDay (date - msPerDay)

/-- `getStartOfWeek`: Monday 00:00 of the week containing the date
(`getDay()` is 0 for Sunday; 1970-01-01 was a Thursday). -/
def getStartOfWeek (date : Int) : Int :=
  let day := (date.fdiv msPerDay + 4).emod 7
  let back := if day = 0 then 6 else day - 1
  (date.fdiv msPerDay - back) * msPerDay

/-- The two-digit-year adjustment of the `new Date(year, month, day)`
constructor: years 0–99 denote 1900–1999. -/
def jsCtorYear (y : Int) : Int :=
  if 0 ≤ y ∧ y ≤ 99 then 1900 + y else y

/-- `getStartOfMonth`: midnight of the 1st of the month containing the
date. -/
def getStartOfMonth (date : Int) : Int :=
  let c := civilFromDays (date.fdiv msPerDay)
  daysFromCivil (jsCtorYear c.1) c.2.1 1 * msPerDay

/-- `getStartOfYear`: midnight of January 1st of the date's year. -/
def getStartOfYear (date : Int) : Int :=
  let c := civilFromDays (date.fdiv msPerDay)
  daysFromCivil (jsCtorYear c.1) 1 1 * msPerDay

/-- `getCalendarStartDate`: start instant of a calendar-based window,
throwing on any other window key. -/
def getCalendarStartDate (timeWindow : String) (referenceDate : Int) :
    Except String Int :=
  match timeWindow with
  | "1d" => .ok (getStartOfYesterday referenceDate)
  | "wtd" => .ok (getStartOfWeek referenceDate)
  | "mtd" => .ok (getStartOfMonth referenceDate)
  | "ytd" => .ok (getStartOfYear referenceDate)
  | _ => .error ("Invalid calendar time window: " ++ timeWindow)

/-! ## Metrics Engine (`portfolio.js`)

Inputs are genuine numbers, so the `typeof` guards of the source cannot
fire and are absorbed by the types.  `Math.pow` is passed in as the
uninterpreted function `jsPow`. -/

/-- `365.25` (the leap-year-aware days-per-year convention). -/
def daysPerYear : ℚ := 1461 / 4

/-- `calculateTotalValue`. -/
def calculateTotalValue (btcAmount currentPrice : ℚ) : Except String ℚ :=
  if btcAmount < 0 ∨ currentPrice < 0 then
    .error "BTC amount and current price must be non-negative"
  else
    .ok (btcAmount * currentPrice)

/-- `calculateAbsoluteGain`. -/
def calculateAbsoluteGain (btcAmount currentPrice purchasePrice : ℚ) :
    Except String ℚ :=
  if btcAmount < 0 ∨ currentPrice < 0 ∨ purchasePrice < 0 then
    .error "All parameters must be non-negative"
  else
    .ok (btcAmount * currentPrice - btcAmount * purchasePrice)

/-- `calculatePercentageGain`. -/
def calculatePercentageGain (currentPrice purchasePrice : ℚ) :
    Except String ℚ :=
  if currentPrice < 0 ∨ purchasePrice ≤ 0 then
    .error "Prices must be positive numbers"
  else
    .ok ((currentPrice - purchasePrice) / purchasePrice)

/-- `calculateCAGR`: `(currentPrice/purchasePrice)^(1/years) - 1` with
strict positivity guards on all three inputs. -/
def calculateCAGR (jsPow : ℚ → ℚ → ℚ)
    (currentPrice purchasePrice years : ℚ) : Except String ℚ :=
  if currentPrice ≤ 0 ∨ purchasePrice ≤ 0 ∨ years ≤ 0 then
    .error "All parameters must be positive numbers"
  else
    .ok (jsPow (currentPrice / purchasePrice) (1 / years) - 1)

/-- `calculateYearsBetweenDates`: millisecond difference, to days, to
`365.25`-day years; throws unless the start is strictly earlier. -/
def calculateYearsBetweenDates (startDate endDate : Int) :
    Except String ℚ :=
  if endDate ≤ startDate then
    .error "Start date must be before end date"
  else
    .ok (((endDate - startDate : Int) : ℚ) / 86400000 / daysPerYear)

/-- The display gate threshold: 30 days in the `365.25` convention. -/
def minYearsForCAGR : ℚ := 30 / daysPerYear

/-- `calculateDisplayCAGR`: `null` for periods under 30 days, otherwise
exactly `calculateCAGR` on the same arguments. -/
def calculateDisplayCAGR (jsPow : ℚ → ℚ → ℚ)
    (currentPrice purchasePrice years : ℚ) : Except String (Option ℚ) :=
  if years < minYearsForCAGR then
    .ok none
  else
    (calculateCAGR jsPow currentPrice purchasePrice years).map some

/-- The value object assembled by `calculatePortfolioMetrics`. -/
structure PortfolioMetrics where
  totalValue : ℚ
  absoluteGain : ℚ
  percentageGain : ℚ
  cagr : ℚ
  displayCAGR : Option ℚ
  years : ℚ
  initialValue : ℚ

/-- `calculatePortfolioMetrics`: the six computations in source order; the
first thrown error aborts the whole call. -/
def calculatePortfolioMetrics (jsPow : ℚ → ℚ → ℚ)
    (btcAmount currentPrice purchasePrice : ℚ)
    (purchaseDate currentDate : Int) : Except String PortfolioMetrics := do
  let totalValue ← calculateTotalValue btcAmount currentPrice
  let absoluteGain ← calculateAbsoluteGain btcAmount currentPrice purchasePrice
  let percentageGain ← calculatePercentageGain currentPrice purchasePrice
  let years ← calculateYearsBetweenDates purchaseDate currentDate
  let cagr ← calculateCAGR jsPow currentPrice purchasePrice years
  let displayCAGR ← calculateDisplayCAGR jsPow currentPrice purchasePrice years
  .ok { totalValue := totalValue
        absoluteGain := absoluteGain
        percentageGain := percentageGain
        cagr := cagr
        displayCAGR := displayCAGR
        years := years
        initialValue := btcAmount * purchasePrice }

/-! ## The 1-day path of the UI coordinator (`app.js` glue)

`updatePortfolioMetricsForTimeWindow` with window `'1d'` resolves the
start, looks the price up, and — before computing any metrics — compares
the start date against the series' latest date; on equality it renders
`N/A*` placeholders and returns without computing metrics.  The outcome of
that branch structure is modelled here; rendering and the subsequent
`calculatePortfolioMetrics` call are beyond the decision being verified,
so the datapoint feeding them is carried instead. -/

/-- Outcome of the `'1d'` branch of `updatePortfolioMetricsForTimeWindow`. -/
inductive OneDayOutcome where
  | insufficientData : OneDayOutcome
  | staleNA (startDay : Int) (price : JSVal) : OneDayOutcome
  | metricsFrom (startDay : Int) (price : JSVal) : OneDayOutcome

/-- The `'1d'` decision logic of `updatePortfolioMetricsForTimeWindow`:
`staleNA` is the early-return branch that skips metric computation, taken
exactly when the looked-up start date equals the latest historical date —
independently of where the current price came from. -/
def updatePortfolioMetricsFor1d (historicalData : ParsedData)
    (currentDate : Int) : OneDayOutcome :=
  let startDate := getStartOfYesterday currentDate
  match getPriceForDate historicalData startDate with
  | none => .insufficientData
  | some startPriceData =>
    if startPriceData.1 = (getLatestPrice historicalData).1 then
      .staleNA startPriceData.1 startPriceData.2
    else
      .metricsFrom startPriceData.1 startPriceData.2

/-- Modelled from the spec: the `isStaleWindow` flag that §4.4 requires the
core to expose alongside the metrics — true exactly when the resolved
window start date equals the series' latest date AND the caller indicates
the current price was sourced from that same latest historical point.  No
such flag exists in the source; this definition exists to compare the
claimed signal with the code's actual behaviour. -/
def specIsStaleWindow (historicalData : ParsedData) (resolvedStartDay : Int)
    (currentPriceFromLatestHistorical : Bool) : Bool :=
  decide (resolvedStartDay = (getLatestPrice historicalData).1)
    && currentPriceFromLatestHistorical

/-- Modelled from the spec: validity of a raw `{start, prices}` input in
the words of §4.1 — an object whose `start` is a parseable calendar-date
string and whose `prices` is a non-empty list in which every price is
numeric, not `NaN`, and not negative.  Used to state that the parser
fails exactly on the spec's conditions. -/
def specValidRawData (data : JSVal) : Bool :=
  match data with
  | .obj st pr =>
    (match st with
     | .str s => (parseDate s).isOk
     | _ => false)
    && (match pr with
        | .arr xs =>
          !xs.isEmpty
            && xs.all fun x => x.isNumberType && !jsIsNaN x && !jsLtZero x
        | _ => false)
  | _ => false

/-! ## Helper lemmas -/

theorem msPerDay_eq : msPerDay = 86400000 := rfl

theorem fdiv_msPerDay (t : Int) : t.fdiv 86400000 = t / 86400000 :=
  Int.fdiv_eq_ediv _ (by norm_num)

theorem parseDate_multiple {s : String} {t : Int}
    (h : parseDate s = .ok t) : ∃ k : Int, t = k * msPerDay := by
  unfold parseDate at h
  rcases hps : parseDateString s with _ | ⟨y, m, d⟩ <;> rw [hps] at h
  · exact absurd h (by simp)
  · exact ⟨daysFromCivil y m d, by injection h with h; omega⟩

theorem parseDate_ne_empty {t : Int} (h : parseDate "" = .ok t) : False := by
  rw [show parseDate "" = .error "Invalid date format: " from rfl] at h
  exact absurd h (by simp)

theorem parseHistoricalData_ok_iff (data : JSVal) (pd : ParsedData) :
    parseHistoricalData data = .ok pd ↔
      ∃ (s : String) (xs : List JSVal) (t : Int),
        data = .obj (.str s) (.arr xs)
        ∧ parseDate s = .ok t
        ∧ xs ≠ []
        ∧ xs.filter invalidPrice = []
        ∧ pd = ⟨s, t, t + ((xs.length : Int) - 1) * msPerDay, xs, xs.length⟩ := by
  constructor
  · intro h
    unfold parseHistoricalData at h
    split at h
    · exact absurd h (by simp)
    · split at h
      · exact absurd h (by simp)
      · split at h
        · next s hsp =>
          split at h
          · next prices hp =>
            split at h
            · exact absurd h (by simp)
            · next hlen =>
              split at h
              · exact absurd h (by simp)
              · next t ht =>
                simp only [gt_iff_lt] at h
                split at h
                · exact absurd h (by simp)
                · next hinv =>
                  injection h with h
                  refine ⟨s, prices, t, ?_, ht,
                    fun hnil => hlen (by simp [hnil]),
                    List.length_eq_zero.mp (by omega), ?_⟩
                  · cases data <;>
                      simp only [JSVal.startProp, JSVal.pricesProp] at hsp hp <;>
                      simp_all
                  · rw [← h]; simp [calculateDate]
          · exact absurd h (by simp)
        · exact absurd h (by simp)
  · rintro ⟨s, xs, t, rfl, ht, hne, hinv, rfl⟩
    have hs : s ≠ "" := by rintro rfl; exact parseDate_ne_empty ht
    have hlen : xs.length ≠ 0 := fun h0 => hne (List.length_eq_zero.mp h0)
    simp [parseHistoricalData, JSVal.startProp, JSVal.pricesProp, JSVal.truthy,
      JSVal.typeofIsObject, hs, hlen, ht, hinv, calculateDate]

theorem getPriceForDate_char (pd : ParsedData) (k : Int)
    (hk : pd.startDate = k * msPerDay) (t : Int) :
    getPriceForDate pd t =
      if t.fdiv msPerDay - k < 0 ∨
          (pd.prices.length : Int) ≤ t.fdiv msPerDay - k then none
      else some (t.fdiv msPerDay,
        (pd.prices[(t.fdiv msPerDay - k).toNat]?).getD .undefined) := by
  have hdd : (t - pd.startDate).fdiv msPerDay = t.fdiv msPerDay - k := by
    rw [hk, msPerDay_eq]
    simp only [fdiv_msPerDay]
    omega
  unfold getPriceForDate formatDate
  rw [hdd]

theorem parseHistoricalData_startDate {data : JSVal} {pd : ParsedData}
    (h : parseHistoricalData data = .ok pd) :
    ∃ k : Int, pd.startDate = k * msPerDay
      ∧ pd.endDate = pd.startDate + ((pd.prices.length : Int) - 1) * msPerDay
      ∧ pd.prices ≠ [] := by
  obtain ⟨s, xs, t, -, ht, hne, -, rfl⟩ := (parseHistoricalData_ok_iff data pd).mp h
  obtain ⟨k, rfl⟩ := parseDate_multiple ht
  exact ⟨k, rfl, rfl, hne⟩

/-- C2: for a successfully parsed series, `getPriceForDate` at
`startDate + i` days returns date `startDate + i` (as a day number) paired
with `prices[i]`; any instant strictly before `startDate` or on a day
strictly after `endDate` yields `null` (not an error); and the time-of-day
component of the queried instant is ignored. -/
theorem c2_price_lookup (data : JSVal) (pd : ParsedData)
    (h : parseHistoricalData data = .ok pd) :
    (∀ (i : ℕ) (p : JSVal), pd.prices[i]? = some p →
      getPriceForDate pd (pd.startDate + (i : Int) * msPerDay)
        = some (formatDate pd.startDate + (i : Int), p))
    ∧ (∀ t : Int, t < pd.startDate → getPriceForDate pd t = none)
    ∧ (∀ t : Int, pd.endDate + msPerDay ≤ t → getPriceForDate pd t = none)
    ∧ (∀ t : Int, getPriceForDate pd t = getPriceForDate pd (startOfDay t)) := by
  obtain ⟨k, hk, hend, -⟩ := parseHistoricalData_startDate h
  have hfd : ∀ a : Int, a.fdiv msPerDay = a / 86400000 := by
    intro a; rw [msPerDay_eq, fdiv_msPerDay]
  refine ⟨?_, ?_, ?_, ?_⟩
  · intro i p hp
    obtain ⟨hi, -⟩ := List.getElem?_eq_some.mp hp
    rw [getPriceForDate_char pd k hk]
    have h1 : (pd.startDate + (i : Int) * msPerDay).fdiv msPerDay = k + i := by
      rw [hk, hfd, msPerDay_eq]; omega
    rw [h1]
    have h2 : ¬(k + (i : Int) - k < 0 ∨ (pd.prices.length : Int) ≤ k + (i : Int) - k) := by
      omega
    rw [if_neg h2]
    have h3 : (k + (i : Int) - k).toNat = i := by omega
    have h4 : formatDate pd.startDate = k := by
      unfold formatDate; rw [hk, hfd, msPerDay_eq]; omega
    rw [h3, h4, hp]
    rfl
  · intro t ht
    rw [getPriceForDate_char pd k hk]
    rw [if_pos]
    left
    rw [hfd]
    rw [hk, msPerDay_eq] at ht
    omega
  · intro t ht
    rw [getPriceForDate_char pd k hk]
    rw [if_pos]
    right
    rw [hfd]
    rw [hend, hk] at ht
    rw [msPerDay_eq] at ht
    omega
  · intro t
    rw [getPriceForDate_char pd k hk, getPriceForDate_char pd k hk]
    have h1 : (startOfDay t).fdiv msPerDay = t.fdiv msPerDay := by
      unfold startOfDay
      rw [hfd, hfd, msPerDay_eq]
      omega
    rw [h1]

/-- C9: a successful parse retains the raw input exactly: the input was
necessarily the object of the parsed series' own `start` string and
`prices` list, so re-deriving `{start, prices}` reproduces it. -/
theorem c9_round_trip (data : JSVal) (pd : ParsedData)
    (h : parseHistoricalData data = .ok pd) :
    data = .obj (.str pd.start) (.arr pd.prices) := by
  obtain ⟨s, xs, t, rfl, -, -, -, rfl⟩ := (parseHistoricalData_ok_iff data pd).mp h
  rfl

theorem invalidPrice_false (p : JSVal) :
    invalidPrice p = false ↔
      (p.isNumberType = true ∧ jsIsNaN p = false ∧ jsLtZero p = false) := by
  simp [invalidPrice, and_assoc]

theorem filter_invalid_nil (xs : List JSVal) :
    xs.filter invalidPrice = [] ↔
      ∀ p ∈ xs, p.isNumberType = true ∧ jsIsNaN p = false ∧ jsLtZero p = false := by
  rw [List.filter_eq_nil_iff]
  apply forall_congr'
  intro p
  apply imp_congr_right
  intro _
  rw [Bool.not_eq_true, invalidPrice_false]

/-- C6 (amended): the parser succeeds exactly on the spec's validity
conditions (object, parseable `start` date string, non-empty list of
prices each numeric, non-`NaN`, non-negative), and on success every
stored price is a number that is not `NaN` and not negative — though not
necessarily finite. -/
theorem c6_parse_validation (data : JSVal) :
    ((parseHistoricalData data).isOk = true ↔ specValidRawData data = true)
    ∧ (∀ pd, parseHistoricalData data = .ok pd →
        ∀ p ∈ pd.prices,
          p.isNumberType = true ∧ jsIsNaN p = false ∧ jsLtZero p = false) := by
  constructor
  · constructor
    · intro hok
      rcases hE : parseHistoricalData data with e | pd
      · rw [hE] at hok; simp [Except.isOk, Except.toBool] at hok
      · obtain ⟨s, xs, t, rfl, ht, hne, hfil, rfl⟩ :=
          (parseHistoricalData_ok_iff data pd).mp hE
        simp only [specValidRawData, ht]
        rw [Bool.and_eq_true]
        refine ⟨rfl, ?_⟩
        rw [Bool.and_eq_true]
        refine ⟨by simpa using hne, ?_⟩
        rw [List.all_eq_true]
        intro p hp
        obtain ⟨h1, h2, h3⟩ := (filter_invalid_nil xs).mp hfil p hp
        simp [h1, h2, h3]
    · intro hv
      rcases data with _ | _ | b | n | s0 | ys | ⟨st, pr⟩
      · simp [specValidRawData] at hv
      · simp [specValidRawData] at hv
      · simp [specValidRawData] at hv
      · simp [specValidRawData] at hv
      · simp [specValidRawData] at hv
      · simp [specValidRawData] at hv
      rcases st with _ | _ | b2 | n2 | s | ys2 | ⟨a2, b2⟩
      · simp [specValidRawData] at hv
      · simp [specValidRawData] at hv
      · simp [specValidRawData] at hv
      · simp [specValidRawData] at hv
      case obj.arr => simp [specValidRawData] at hv
      case obj.obj => simp [specValidRawData] at hv
      case obj.str =>
        rcases pr with _ | _ | b3 | n3 | s3 | xs | ⟨a3, b3⟩
        · simp [specValidRawData] at hv
        · simp [specValidRawData] at hv
        · simp [specValidRawData] at hv
        · simp [specValidRawData] at hv
        · simp [specValidRawData] at hv
        case obj => simp [specValidRawData] at hv
        case arr =>
          simp only [specValidRawData, Bool.and_eq_true, List.all_eq_true] at hv
          obtain ⟨hPok, hne, hall⟩ := hv
          rcases hE : parseDate s with e | t
          · rw [hE] at hPok; simp [Except.isOk, Except.toBool] at hPok
          · have hfil : xs.filter invalidPrice = [] := by
              rw [filter_invalid_nil]
              intro p hp
              have hthis := hall p hp
              simp only [Bool.and_eq_true, Bool.not_eq_true'] at hthis
              exact ⟨hthis.1.1, hthis.1.2, hthis.2⟩
            have hne' : xs ≠ [] := by
              intro hnil; rw [hnil] at hne; simp at hne
            have hok : parseHistoricalData (JSVal.obj (.str s) (.arr xs)) =
                .ok ⟨s, t, t + ((xs.length : Int) - 1) * msPerDay, xs, xs.length⟩ :=
              (parseHistoricalData_ok_iff _ _).mpr ⟨s, xs, t, rfl, hE, hne', hfil, rfl⟩
            rw [hok]
            rfl
  · intro pd hok p hp
    obtain ⟨s, xs, t, rfl, -, -, hfil, rfl⟩ :=
      (parseHistoricalData_ok_iff data pd).mp hok
    exact (filter_invalid_nil xs).mp hfil p hp

/-- The record produced by a successful `calculatePortfolioMetrics` run,
written out in closed form. -/
def metricsClosedForm (jsPow : ℚ → ℚ → ℚ) (btcAmount currentPrice purchasePrice : ℚ)
    (purchaseDate currentDate : Int) : PortfolioMetrics :=
  { totalValue := btcAmount * currentPrice
    absoluteGain := btcAmount * currentPrice - btcAmount * purchasePrice
    percentageGain := (currentPrice - purchasePrice) / purchasePrice
    cagr := jsPow (currentPrice / purchasePrice)
      (1 / (((currentDate - purchaseDate : Int) : ℚ) / 86400000 / daysPerYear)) - 1
    displayCAGR :=
      if ((currentDate - purchaseDate : Int) : ℚ) / 86400000 / daysPerYear
          < minYearsForCAGR then none
      else some (jsPow (currentPrice / purchasePrice)
        (1 / (((currentDate - purchaseDate : Int) : ℚ) / 86400000 / daysPerYear)) - 1)
    years := ((currentDate - purchaseDate : Int) : ℚ) / 86400000 / daysPerYear
    initialValue := btcAmount * purchasePrice }

theorem yearsPosOfLt {t0 t1 : Int} (h : t0 < t1) :
    (0 : ℚ) < ((t1 - t0 : Int) : ℚ) / 86400000 / daysPerYear := by
  have h1 : (0 : ℚ) < ((t1 - t0 : Int) : ℚ) := by
    exact_mod_cast Int.sub_pos.mpr h
  have h2 : (0 : ℚ) < daysPerYear := by norm_num [daysPerYear]
  positivity

theorem calculatePortfolioMetrics_ok_iff (jsPow : ℚ → ℚ → ℚ)
    (b c p : ℚ) (t0 t1 : Int) (m : PortfolioMetrics) :
    calculatePortfolioMetrics jsPow b c p t0 t1 = .ok m ↔
      (0 ≤ b ∧ 0 < c ∧ 0 < p ∧ t0 < t1
        ∧ m = metricsClosedForm jsPow b c p t0 t1) := by
  unfold calculatePortfolioMetrics
  by_cases hg1 : b < 0 ∨ c < 0
  · rw [show calculateTotalValue b c
        = .error "BTC amount and current price must be non-negative" from by
      unfold calculateTotalValue; rw [if_pos hg1]]
    simp only [bind, Except.bind]
    exact iff_of_false (by simp)
      (by rintro ⟨hb, hc, hp, ht, -⟩; rcases hg1 with h | h <;> linarith)
  · rw [show calculateTotalValue b c = .ok (b * c) from by
      unfold calculateTotalValue; rw [if_neg hg1]]
    simp only [bind, Except.bind]
    by_cases hg2 : b < 0 ∨ c < 0 ∨ p < 0
    · rw [show calculateAbsoluteGain b c p
          = .error "All parameters must be non-negative" from by
        unfold calculateAbsoluteGain; rw [if_pos hg2]]
      simp only [Except.bind]
      exact iff_of_false (by simp)
        (by rintro ⟨hb, hc, hp, ht, -⟩; rcases hg2 with h | h | h <;> linarith)
    · rw [show calculateAbsoluteGain b c p = .ok (b * c - b * p) from by
        unfold calculateAbsoluteGain; rw [if_neg hg2]]
      simp only [Except.bind]
      by_cases hg3 : c < 0 ∨ p ≤ 0
      · rw [show calculatePercentageGain c p
            = .error "Prices must be positive numbers" from by
          unfold calculatePercentageGain; rw [if_pos hg3]]
        simp only [Except.bind]
        exact iff_of_false (by simp)
          (by rintro ⟨hb, hc, hp, ht, -⟩; rcases hg3 with h | h <;> linarith)
      · rw [show calculatePercentageGain c p = .ok ((c - p) / p) from by
          unfold calculatePercentageGain; rw [if_neg hg3]]
        simp only [Except.bind]
        by_cases hg4 : t1 ≤ t0
        · rw [show calculateYearsBetweenDates t0 t1
              = .error "Start date must be before end date" from by
            unfold calculateYearsBetweenDates; rw [if_pos hg4]]
          simp only [Except.bind]
          exact iff_of_false (by simp)
            (by rintro ⟨hb, hc, hp, ht, -⟩; omega)
        · rw [show calculateYearsBetweenDates t0 t1
              = .ok (((t1 - t0 : Int) : ℚ) / 86400000 / daysPerYear) from by
            unfold calculateYearsBetweenDates; rw [if_neg hg4]]
          simp only [Except.bind]
          have hyears : (0 : ℚ) < ((t1 - t0 : Int) : ℚ) / 86400000 / daysPerYear :=
            yearsPosOfLt (by omega)
          by_cases hg5 : c ≤ 0 ∨ p ≤ 0 ∨
              ((t1 - t0 : Int) : ℚ) / 86400000 / daysPerYear ≤ 0
          · rw [show calculateCAGR jsPow c p
                  (((t1 - t0 : Int) : ℚ) / 86400000 / daysPerYear)
                = .error "All parameters must be positive numbers" from by
              unfold calculateCAGR; rw [if_pos hg5]]
            simp only [Except.bind]
            exact iff_of_false (by simp)
              (by rintro ⟨hb, hc, hp, ht, -⟩
                  rcases hg5 with h | h | h <;> linarith)
          · rw [show calculateCAGR jsPow c p
                  (((t1 - t0 : Int) : ℚ) / 86400000 / daysPerYear)
                = .ok (jsPow (c / p)
                    (1 / (((t1 - t0 : Int) : ℚ) / 86400000 / daysPerYear)) - 1) from by
              unfold calculateCAGR; rw [if_neg hg5]]
            simp only [Except.bind]
            push_neg at hg1 hg4 hg5
            by_cases hg6 : ((t1 - t0 : Int) : ℚ) / 86400000 / daysPerYear
                < minYearsForCAGR
            · rw [show calculateDisplayCAGR jsPow c p
                    (((t1 - t0 : Int) : ℚ) / 86400000 / daysPerYear)
                  = .ok none from by
                unfold calculateDisplayCAGR; rw [if_pos hg6]]
              simp only [Except.bind, Except.ok.injEq]
              constructor
              · intro h
                refine ⟨hg1.1, hg5.1, hg5.2.1, hg4, ?_⟩
                rw [← h]
                unfold metricsClosedForm
                rw [if_pos hg6]
              · rintro ⟨-, -, -, -, rfl⟩
                unfold metricsClosedForm
                rw [if_pos hg6]
            · rw [show calculateDisplayCAGR jsPow c p
                    (((t1 - t0 : Int) : ℚ) / 86400000 / daysPerYear)
                  = .ok (some (jsPow (c / p)
                      (1 / (((t1 - t0 : Int) : ℚ) / 86400000 / daysPerYear)) - 1))
                  from by
                unfold calculateDisplayCAGR calculateCAGR
                rw [if_neg hg6, if_neg (by push_neg; exact
                  ⟨hg5.1, hg5.2.1, hyears⟩)]
                rfl]
              simp only [Except.bind, Except.ok.injEq]
              constructor
              · intro h
                refine ⟨hg1.1, hg5.1, hg5.2.1, hg4, ?_⟩
                rw [← h]
                unfold metricsClosedForm
                rw [if_neg hg6]
              · rintro ⟨-, -, -, -, rfl⟩
                unfold metricsClosedForm
                rw [if_neg hg6]

/-- C3 (amended): `calculatePortfolioMetrics` succeeds exactly when
`amountHeld ≥ 0`, `currentPrice > 0`, `purchasePrice > 0` and
`now > startInstant`; in particular a zero current price is rejected (by
the CAGR guard), contrary to the claim. -/
theorem c3_metrics_preconditions (jsPow : ℚ → ℚ → ℚ)
    (b c p : ℚ) (t0 t1 : Int) :
    (calculatePortfolioMetrics jsPow b c p t0 t1).isOk = true ↔
      (0 ≤ b ∧ 0 < c ∧ 0 < p ∧ t0 < t1) := by
  rcases hE : calculatePortfolioMetrics jsPow b c p t0 t1 with e | m
  · simp only [Except.isOk, Except.toBool, Bool.false_eq_true, false_iff, not_and]
    intro hb hc hp
    intro ht
    have := (calculatePortfolioMetrics_ok_iff jsPow b c p t0 t1
      (metricsClosedForm jsPow b c p t0 t1)).mpr ⟨hb, hc, hp, ht, rfl⟩
    rw [hE] at this
    exact absurd this (by simp)
  · simp only [Except.isOk, Except.toBool, true_iff]
    have := (calculatePortfolioMetrics_ok_iff jsPow b c p t0 t1 m).mp hE
    exact ⟨this.1, this.2.1, this.2.2.1, this.2.2.2.1⟩

/-- C3 counterexample: with `amountHeld = 1`, `currentPrice = 0`,
`startPrice = 50000` and a one-day period — inputs the claim says must
succeed — the computation throws (in `calculateCAGR`). -/
theorem c3_counterexample :
    calculatePortfolioMetrics (fun _ _ => 0) 1 0 50000 0 86400000
      = .error "All parameters must be positive numbers" := by
  rfl

/-- C4: on every successful metrics computation, `displayCAGR` is absent
exactly when `years` is below the 30-day threshold `30 / 365.25`, and at
or above the threshold it equals `cagr` itself (the same computation). -/
theorem c4_display_cagr_gate (jsPow : ℚ → ℚ → ℚ) (b c p : ℚ) (t0 t1 : Int)
    (m : PortfolioMetrics)
    (h : calculatePortfolioMetrics jsPow b c p t0 t1 = .ok m) :
    (m.displayCAGR = none ↔ m.years < minYearsForCAGR)
      ∧ (minYearsForCAGR ≤ m.years → m.displayCAGR = some m.cagr) := by
  obtain ⟨-, -, -, -, rfl⟩ := (calculatePortfolioMetrics_ok_iff _ _ _ _ _ _ _).mp h
  unfold metricsClosedForm
  constructor
  · constructor
    · intro hnone
      by_contra hge
      rw [if_neg hge] at hnone
      exact absurd hnone (by simp)
    · intro hlt
      rw [if_pos hlt]
  · intro hge
    rw [if_neg (by simpa using not_lt.mpr hge)]

/-- C10: for any period below the 30-day display threshold,
`calculateDisplayCAGR` returns `null` without throwing, whatever the
prices are — the gate precedes every price check. -/
theorem c10_gate_before_validation (jsPow : ℚ → ℚ → ℚ)
    (currentPrice purchasePrice years : ℚ)
    (h : years < minYearsForCAGR) :
    calculateDisplayCAGR jsPow currentPrice purchasePrice years = .ok none := by
  unfold calculateDisplayCAGR
  rw [if_pos h]

/-- C1: the "1d" window resolves to 00:00 UTC of the calendar day
immediately preceding the reference instant's calendar day; hence any two
instants of one calendar day resolve identically, and the result is not
`now - 24h` (witnessed at noon of 2024-12-16). -/
theorem c1_one_day_window :
    (∀ now : Int, getCalendarStartDate "1d" now
        = .ok ((now.fdiv msPerDay - 1) * msPerDay))
    ∧ (∀ t1 t2 : Int, t1.fdiv msPerDay = t2.fdiv msPerDay →
        getCalendarStartDate "1d" t1 = getCalendarStartDate "1d" t2)
    ∧ getCalendarStartDate "1d" (daysFromCivil 2024 12 16 * msPerDay + 43200000)
        ≠ .ok (daysFromCivil 2024 12 16 * msPerDay + 43200000 - 24 * 3600000) := by
  have key : ∀ now : Int, getCalendarStartDate "1d" now
      = .ok ((now.fdiv msPerDay - 1) * msPerDay) := by
    intro now
    show Except.ok (getStartOfYesterday now) = _
    unfold getStartOfYesterday startOfDay
    rw [msPerDay_eq]
    simp only [fdiv_msPerDay]
    rw [show (now - 86400000) / 86400000 = now / 86400000 - 1 from by omega]
  refine ⟨key, ?_, ?_⟩
  · intro t1 t2 h
    rw [key t1, key t2, h]
  · rw [key]
    intro h
    injection h with h
    rw [msPerDay_eq] at h
    simp only [fdiv_msPerDay] at h
    omega

/-! ## Scenario data -/

/-- The raw Scenario A series `{start: "2024-12-14", prices: [52000, 50000, 45000]}`. -/
def scenarioRawA : JSVal :=
  .obj (.str "2024-12-14")
    (.arr [.num (.fin 52000), .num (.fin 50000), .num (.fin 45000)])

/-- The parsed Scenario A series. -/
def seriesA : ParsedData :=
  ⟨"2024-12-14", 1734134400000, 1734307200000,
    [.num (.fin 52000), .num (.fin 50000), .num (.fin 45000)], 3⟩

/-- The Scenario A reference instant `2024-12-16T12:00Z`. -/
def scenarioNowA : Int := daysFromCivil 2024 12 16 * msPerDay + 43200000

/-- C5, Scenario A: parsing the series, resolving the "1-day" window at
`2024-12-16T12:00Z` yields 2024-12-15 whose price is 50000, and metrics
with one unit held and current price 45000 give `absoluteGain = -5000`
and `percentageGain = -1/10`, whatever `Math.pow` computes. -/
theorem c5_scenario_a (jsPow : ℚ → ℚ → ℚ) :
    parseHistoricalData scenarioRawA = .ok seriesA
    ∧ getCalendarStartDate "1d" scenarioNowA
        = .ok (daysFromCivil 2024 12 15 * msPerDay)
    ∧ getPriceForDate seriesA (daysFromCivil 2024 12 15 * msPerDay)
        = some (daysFromCivil 2024 12 15, .num (.fin 50000))
    ∧ (calculatePortfolioMetrics jsPow 1 45000 50000
          (daysFromCivil 2024 12 15 * msPerDay) scenarioNowA).map
        (fun m => (m.absoluteGain, m.percentageGain))
        = .ok (-5000, -1/10) := by
  refine ⟨rfl, rfl, rfl, ?_⟩
  have hok := (calculatePortfolioMetrics_ok_iff jsPow 1 45000 50000
    (daysFromCivil 2024 12 15 * msPerDay) scenarioNowA
    (metricsClosedForm jsPow 1 45000 50000
      (daysFromCivil 2024 12 15 * msPerDay) scenarioNowA)).mpr
    ⟨by norm_num, by norm_num, by norm_num, by decide, rfl⟩
  rw [hok]
  unfold metricsClosedForm
  simp only [Except.map]
  norm_num

/-- C7 (amended): in the `'1d'` path of the UI coordinator, whenever the
resolved start has a price, the metrics-skipping `N/A*` branch is taken
exactly when that start date equals the series' latest date — a condition
that ignores where the current price was sourced; no `isStaleWindow`
boolean is computed alongside metrics. -/
theorem c7_stale_branch (pd : ParsedData) (nowMs : Int) (d : Int) (p : JSVal)
    (h : getPriceForDate pd (getStartOfYesterday nowMs) = some (d, p)) :
    (updatePortfolioMetricsFor1d pd nowMs = .staleNA d p
        ↔ d = (getLatestPrice pd).1)
    ∧ (d ≠ (getLatestPrice pd).1 →
        updatePortfolioMetricsFor1d pd nowMs = .metricsFrom d p) := by
  simp only [updatePortfolioMetricsFor1d]
  rw [h]
  dsimp only
  by_cases he : d = (getLatestPrice pd).1
  · rw [if_pos he]
    exact ⟨⟨fun _ => he, fun _ => rfl⟩, fun hne => absurd he hne⟩
  · rw [if_neg he]
    exact ⟨⟨fun hc => absurd hc (by simp), fun hc => absurd hc he⟩, fun _ => rfl⟩

/-- The stale-scenario series of the repository's own tests:
`{start: "2024-12-14", prices: [52000, 50000]}` (ends the day before
`2024-12-16`). -/
def seriesStale : ParsedData :=
  ⟨"2024-12-14", 1734134400000, 1734220800000,
    [.num (.fin 52000), .num (.fin 50000)], 2⟩

/-! ## C8: getPriceRange -/

/-- Modelled from the spec: the ordered `{date, price}` entries for the
days of `[fromDay, toDay]` clipped to the series bounds. -/
def specClippedEntries (pd : ParsedData) (fromDay toDay : Int) :
    List (Int × JSVal) :=
  (List.range (min toDay (formatDate pd.endDate) + 1
      - max fromDay (formatDate pd.startDate)).toNat).map fun (j : ℕ) =>
    (max fromDay (formatDate pd.startDate) + (j : Int),
      (pd.prices[(max fromDay (formatDate pd.startDate) + (j : Int)
        - formatDate pd.startDate).toNat]?).getD .undefined)

/-- C8: on a parsed series, `getPriceRange` at (midnights of) day numbers
`f ≤ t` returns precisely the ordered clipped entries — the empty list,
not an error, when the request misses the series — and throws exactly
when `f > t`. -/
theorem c8_price_range (data : JSVal) (pd : ParsedData)
    (h : parseHistoricalData data = .ok pd) (f t : Int) :
    ((getPriceRange pd (f * msPerDay) (t * msPerDay)).isOk = true ↔ f ≤ t)
    ∧ (f ≤ t →
        getPriceRange pd (f * msPerDay) (t * msPerDay)
          = .ok (specClippedEntries pd f t)
        ∧ (specClippedEntries pd f t = [] ↔
            (t < formatDate pd.startDate ∨ formatDate pd.endDate < f))
        ∧ (specClippedEntries pd f t).Pairwise (fun a b => a.1 < b.1)) := by
  obtain ⟨k, hk, hend, hne⟩ := parseHistoricalData_startDate h
  have hn1 : 1 ≤ pd.prices.length := List.length_pos.mpr hne
  have hms : (0 : Int) < msPerDay := by rw [msPerDay_eq]; norm_num
  have hkfmt : formatDate pd.startDate = k := by
    unfold formatDate
    rw [hk, msPerDay_eq, fdiv_msPerDay]
    omega
  have hefmt : formatDate pd.endDate = k + (pd.prices.length : Int) - 1 := by
    unfold formatDate
    rw [hend, hk, msPerDay_eq, fdiv_msPerDay]
    omega
  have hguard : (t * msPerDay < f * msPerDay) ↔ t < f :=
    mul_lt_mul_right hms
  constructor
  · by_cases hft : f ≤ t
    · rw [getPriceRange, if_neg (by rw [hguard]; omega)]
      simp [Except.isOk, Except.toBool, hft]
    · rw [getPriceRange, if_pos (by rw [hguard]; omega)]
      simp [Except.isOk, Except.toBool, hft]
  · intro hft
    have hsd : (f * msPerDay - pd.startDate).fdiv msPerDay = f - k := by
      rw [hk, msPerDay_eq, fdiv_msPerDay]; omega
    have hed : (t * msPerDay - pd.startDate).fdiv msPerDay = t - k := by
      rw [hk, msPerDay_eq, fdiv_msPerDay]; omega
    have hrange : getPriceRange pd (f * msPerDay) (t * msPerDay)
        = .ok (rangeEntries pd (max 0 (f - k))
            (min ((pd.prices.length : Int) - 1) (t - k))) := by
      rw [getPriceRange, if_neg (by rw [hguard]; omega)]
      rw [hsd, hed]
    have hspec : rangeEntries pd (max 0 (f - k))
        (min ((pd.prices.length : Int) - 1) (t - k))
        = specClippedEntries pd f t := by
      unfold rangeEntries specClippedEntries
      rw [hkfmt, hefmt]
      have hlen : (min ((pd.prices.length : Int) - 1) (t - k) + 1
          - max 0 (f - k)).toNat
          = (min t (k + (pd.prices.length : Int) - 1) + 1 - max f k).toNat := by
        omega
      rw [hlen]
      apply List.map_congr_left
      intro j hj
      dsimp only
      have hdate : formatDate (calculateDate pd.startDate (max 0 (f - k) + (j : Int)))
          = max f k + (j : Int) := by
        unfold formatDate calculateDate
        rw [hk, msPerDay_eq, fdiv_msPerDay]
        omega
      rw [hdate]
      have hidx : (max 0 (f - k) + (j : Int)).toNat
          = (max f k + (j : Int) - k).toNat := by
        omega
      rw [hidx]
    refine ⟨by rw [hrange, hspec], ?_, ?_⟩
    · unfold specClippedEntries
      rw [hkfmt, hefmt]
      rw [List.map_eq_nil_iff, List.range_eq_nil]
      omega
    · unfold specClippedEntries
      rw [List.pairwise_map]
      apply List.Pairwise.imp ?_ (List.pairwise_lt_range _)
      intro a b hab
      simp only
      omega

/-! ## Witnesses and counterexamples -/

theorem c1_one_day_window_witness :
    getCalendarStartDate "1d" (20073 * msPerDay + 300000)
      = getCalendarStartDate "1d" (20073 * msPerDay + 86100000) :=
  c1_one_day_window.2.1 _ _ (by decide)

theorem c2_price_lookup_witness :
    getPriceForDate seriesA (seriesA.startDate + (1 : Int) * msPerDay)
      = some (formatDate seriesA.startDate + (1 : Int), .num (.fin 50000))
    ∧ getPriceForDate seriesA (seriesA.startDate - 1) = none
    ∧ getPriceForDate seriesA (seriesA.endDate + msPerDay) = none
    ∧ getPriceForDate seriesA (seriesA.startDate + msPerDay + 43200000)
      = getPriceForDate seriesA
          (startOfDay (seriesA.startDate + msPerDay + 43200000)) := by
  have h := c2_price_lookup scenarioRawA seriesA rfl
  exact ⟨h.1 1 _ rfl, h.2.1 _ (by decide), h.2.2.1 _ (by decide), h.2.2.2 _⟩

theorem c3_metrics_preconditions_witness :
    (calculatePortfolioMetrics (fun _ _ => 0) 1 45000 50000 0 86400000).isOk
      = true :=
  (c3_metrics_preconditions (fun _ _ => 0) 1 45000 50000 0 86400000).mpr
    (by norm_num)

/-- The metrics record of the 45-day witness scenario. -/
def c4Metrics : PortfolioMetrics :=
  metricsClosedForm (fun _ _ => 0) 1 51000 50000 0 (45 * 86400000)

theorem c4_display_cagr_gate_witness :
    calculatePortfolioMetrics (fun _ _ => 0) 1 51000 50000 0 (45 * 86400000)
      = .ok c4Metrics
    ∧ ((c4Metrics.displayCAGR = none ↔ c4Metrics.years < minYearsForCAGR)
      ∧ (minYearsForCAGR ≤ c4Metrics.years →
          c4Metrics.displayCAGR = some c4Metrics.cagr)) :=
  have h : calculatePortfolioMetrics (fun _ _ => 0) 1 51000 50000 0
      (45 * 86400000) = .ok c4Metrics :=
    (calculatePortfolioMetrics_ok_iff _ _ _ _ _ _ _).mpr
      ⟨by norm_num, by norm_num, by norm_num, by norm_num, rfl⟩
  ⟨h, c4_display_cagr_gate _ _ _ _ _ _ _ h⟩

/-- A raw series whose single price is `Infinity`. -/
def rawInfinity : JSVal := .obj (.str "2024-12-14") (.arr [.num .posInf])

/-- C6 counterexample: `Infinity` is numeric, not `NaN` and not negative,
so `parseHistoricalData` accepts it — yet the resulting series holds a
non-finite price, refuting the claimed "finite" invariant. -/
theorem c6_counterexample :
    (parseHistoricalData rawInfinity).isOk = true
    ∧ ((parseHistoricalData rawInfinity).toOption.map
        fun pd => pd.prices.all jsIsFinite) = some false :=
  ⟨rfl, rfl⟩

theorem c6_parse_validation_witness :
    ((parseHistoricalData scenarioRawA).isOk = true
      ↔ specValidRawData scenarioRawA = true)
    ∧ (JSVal.isNumberType (.num (.fin 52000)) = true
      ∧ jsIsNaN (.num (.fin 52000)) = false
      ∧ jsLtZero (.num (.fin 52000)) = false) :=
  ⟨(c6_parse_validation scenarioRawA).1,
   (c6_parse_validation scenarioRawA).2 seriesA rfl _ (by simp [seriesA])⟩

theorem c7_stale_branch_witness :
    updatePortfolioMetricsFor1d seriesStale scenarioNowA
        = .staleNA 20072 (.num (.fin 50000))
      ↔ (20072 : Int) = (getLatestPrice seriesStale).1 :=
  (c7_stale_branch seriesStale scenarioNowA 20072 (.num (.fin 50000)) rfl).1

/-- C7 counterexample: with the test repository's stale series and a fresh
current price (not sourced from the latest historical point, flag
`false`), the code still takes the metrics-skipping `N/A*` branch, though
the claimed `isStaleWindow` signal is false — and no flag accompanies any
metrics, since none are computed. -/
theorem c7_counterexample :
    updatePortfolioMetricsFor1d seriesStale scenarioNowA
      = .staleNA 20072 (.num (.fin 50000))
    ∧ specIsStaleWindow seriesStale 20072 false = false :=
  ⟨rfl, rfl⟩

theorem c8_price_range_witness :
    ((getPriceRange seriesA (20070 * msPerDay) (20072 * msPerDay)).isOk = true
      ↔ (20070 : Int) ≤ 20072)
    ∧ (getPriceRange seriesA (20070 * msPerDay) (20072 * msPerDay)
        = .ok (specClippedEntries seriesA 20070 20072)
      ∧ (specClippedEntries seriesA 20070 20072 = [] ↔
          ((20072 : Int) < formatDate seriesA.startDate
            ∨ formatDate seriesA.endDate < 20070))
      ∧ (specClippedEntries seriesA 20070 20072).Pairwise
          (fun a b => a.1 < b.1)) :=
  ⟨(c8_price_range scenarioRawA seriesA rfl 20070 20072).1,
   (c8_price_range scenarioRawA seriesA rfl 20070 20072).2 (by norm_num)⟩

theorem c9_round_trip_witness :
    parseHistoricalData scenarioRawA = .ok seriesA
    ∧ scenarioRawA = .obj (.str seriesA.start) (.arr seriesA.prices) :=
  ⟨rfl, c9_round_trip scenarioRawA seriesA rfl⟩

theorem c10_gate_before_validation_witness :
    (1 : ℚ) / 365 < minYearsForCAGR
    ∧ calculateDisplayCAGR (fun _ _ => 0) 0 (-5) (1 / 365) = .ok none :=
  ⟨by norm_num [minYearsForCAGR, daysPerYear],
   c10_gate_before_validation _ 0 (-5) _
     (by norm_num [minYearsForCAGR, daysPerYear])⟩
